import Mathlib

/-!
Shallow embedding of the activity-feed subsystem of `c2corg_api/views/feed.py`.

The change log is modelled as a list of `DocumentChange` records; the SQL query
of `get_changes_of_feed` (ORDER BY time DESC, change_id ASC; pagination filter;
optional extra filter; LIMIT) becomes sorting with `canonR`, `List.filter` and
`List.take`.  Hydration (`load_documents`) is modelled as a function
`Nat → Option Doc` (document ids are globally unique across types), and
`load_feed` builds the response exactly as the Python code does.
Timestamps are modelled as `Nat`; `isoformat` is their (injective) rendering.
-/

namespace Feed

/-- A row of the `DocumentChange` change log (models/feed.py). -/
structure DocumentChange where
  change_id : Nat
  time : Nat
  user_id : Nat
  user_ids : List Nat
  document_id : Nat
  document_type : String
  change_type : String
  area_ids : List Nat
  activities : List String
  image1_id : Option Nat
  image2_id : Option Nat
  image3_id : Option Nat
  more_images : Bool
deriving DecidableEq, Repr

/-- A hydrated document view; the feed only relies on its id key. -/
structure Doc where
  document_id : Nat
deriving DecidableEq, Repr

/-- One element of the `feed` array built by `load_feed`. -/
structure FeedEntry where
  id : Nat
  time : String
  user : Doc
  participants : List Doc
  change_type : String
  document : Doc
  image1 : Option Doc
  image2 : Option Doc
  image3 : Option Doc
  more_images : Bool
deriving DecidableEq, Repr

/-- The response of `load_feed`: the `pagination_token` key is `none` when absent. -/
structure FeedResponse where
  feed : List FeedEntry
  pagination_token : Option String
deriving DecidableEq, Repr

/-- Rendering of a timestamp, standing for Python `time.isoformat()` (injective). -/
def isoformat (t : Nat) : String := toString t

/-- The PostgreSQL array-overlap operator `&&`: the two lists share an element. -/
def overlaps [DecidableEq α] (xs ys : List α) : Bool :=
  xs.any (fun x => ys.contains x)

/-- The canonical feed order `ORDER BY time DESC, change_id ASC` as a total preorder. -/
def canonR (a b : DocumentChange) : Prop :=
  b.time < a.time ∨ (a.time = b.time ∧ a.change_id ≤ b.change_id)

instance : DecidableRel canonR := fun a b => by
  unfold canonR; infer_instance

instance : IsTotal DocumentChange canonR := by
  constructor; intro a b; unfold canonR; omega

instance : IsTrans DocumentChange canonR := by
  constructor; intro a b c; unfold canonR; omega

/-- The ordered read of the change log (the `order_by` of the SQL query). -/
def sortCanon (db : List DocumentChange) : List DocumentChange :=
  List.insertionSort canonR db

/-- The pagination filter of `get_changes_of_feed`: applied only when both
token parts are present; keeps `time < token_time OR
(time == token_time AND change_id > token_id)`. -/
def pagination_ok (token_id token_time : Option Nat) (c : DocumentChange) : Bool :=
  match token_id, token_time with
  | some tid, some ttime =>
      decide (c.time < ttime) || (decide (c.time = ttime) && decide (tid < c.change_id))
  | _, _ => true

/-- `query.filter(extra_filter)` when `extra_filter is not None`. -/
def applyExtra (extra_filter : Option (DocumentChange → Bool))
    (l : List DocumentChange) : List DocumentChange :=
  match extra_filter with
  | none => l
  | some f => l.filter f

/-- `get_changes_of_feed(token_id, token_time, limit, extra_filter)`. -/
def get_changes_of_feed (db : List DocumentChange) (token_id token_time : Option Nat)
    (limit : Nat) (extra_filter : Option (DocumentChange → Bool)) : List DocumentChange :=
  (applyExtra extra_filter
    ((sortCanon db).filter (pagination_ok token_id token_time))).take limit

/-- The preference record of a user, with its associated `FilterArea` and
`FollowedUser` rows inlined as lists. -/
structure UserPref where
  id : Nat
  feed_followed_only : Bool
  feed_filter_activities : List String
  filter_area_ids : List Nat
  followed_user_ids : List Nat
deriving DecidableEq, Repr

/-- The derived column `has_area_filter`: the user has `FilterArea` rows. -/
def has_area_filter (u : UserPref) : Bool := !u.filter_area_ids.isEmpty

/-- The derived column `is_following_users`: the user has `FollowedUser` rows. -/
def is_following_users (u : UserPref) : Bool := !u.followed_user_ids.isEmpty

/-- `create_followed_users_filter(user)`. -/
def create_followed_users_filter (u : UserPref) : Option (DocumentChange → Bool) :=
  if !(is_following_users u) then none
  else some (fun c => overlaps c.user_ids u.followed_user_ids)

/-- `create_area_filter(user)`. -/
def create_area_filter (u : UserPref) : Option (DocumentChange → Bool) :=
  if !(has_area_filter u) then none
  else some (fun c => overlaps c.area_ids u.filter_area_ids)

/-- `create_activity_filter(user)`. -/
def create_activity_filter (u : UserPref) : Option (DocumentChange → Bool) :=
  if u.feed_filter_activities.isEmpty then none
  else some (fun c => overlaps c.activities u.feed_filter_activities)

/-- `create_personal_filter(user)`: follow-only short-circuit, then the
AND-combination of area/activity, then the OR-combination with followed users. -/
def create_personal_filter (u : UserPref) : Option (DocumentChange → Bool) :=
  if u.feed_followed_only then
    create_followed_users_filter u
  else
    let area_activity_filter : Option (DocumentChange → Bool) :=
      if !u.feed_filter_activities.isEmpty || has_area_filter u then
        match create_area_filter u, create_activity_filter u with
        | some a, some f => some (fun c => a c && f c)
        | some a, none => some a
        | none, some f => some f
        | none, none => none
      else none
    match area_activity_filter with
    | none => none
    | some aa =>
      match (if is_following_users u then create_followed_users_filter u else none) with
      | some fu => some (fun c => aa c || fu c)
      | none => some aa

/-- `has_no_custom_filter(user)`. -/
def has_no_custom_filter (u : UserPref) : Bool :=
  !(!u.feed_filter_activities.isEmpty || has_area_filter u ||
    is_following_users u || u.feed_followed_only)

/-- `get_changes_of_personal_feed(user_id, token_id, token_time, limit)`,
with the user row passed directly instead of looked up. -/
def get_changes_of_personal_feed (u : UserPref) (db : List DocumentChange)
    (token_id token_time : Option Nat) (limit : Nat) : List DocumentChange :=
  if has_no_custom_filter u then
    get_changes_of_feed db token_id token_time limit none
  else
    get_changes_of_feed db token_id token_time limit (create_personal_filter u)

/-- A row of the `user` table, restricted to the columns the feed reads. -/
structure UserRow where
  id : Nat
  email_validated : Bool
  is_profile_public : Bool
deriving DecidableEq, Repr

/-- Result of `get_changes_of_profile_feed`: it can raise `HTTPNotFound`. -/
inductive ProfileChangesResult where
  | notFound
  | ok (changes : List DocumentChange)
deriving DecidableEq, Repr

/-- `get_changes_of_profile_feed(user_id, token_id, token_time, limit)`:
the existence check tests only `User.id == user_id`, nothing else. -/
def get_changes_of_profile_feed (users : List UserRow) (user_id : Nat)
    (db : List DocumentChange) (token_id token_time : Option Nat) (limit : Nat) :
    ProfileChangesResult :=
  if users.any (fun u => u.id == user_id) then
    .ok (get_changes_of_feed db token_id token_time limit
      (some (fun c => overlaps c.user_ids [user_id])))
  else .notFound

/-- Per-change feed entry construction: the body of the list comprehension in
`load_feed`, defined only when actor and target document hydrated. -/
def entryOf (docs : Nat → Option Doc) (c : DocumentChange) : Option FeedEntry :=
  match docs c.user_id, docs c.document_id with
  | some u, some d =>
    some
      { id := c.change_id
        time := isoformat c.time
        user := u
        participants :=
          c.user_ids.filterMap (fun uid => if uid = c.user_id then none else docs uid)
        change_type := c.change_type
        document := d
        image1 := c.image1_id.bind docs
        image2 := c.image2_id.bind docs
        image3 := c.image3_id.bind docs
        more_images := c.more_images }
  | _, _ => none

/-- The hydration-driven filter of `load_feed`: keep a change only when its
actor and its target document hydrated. -/
def hydrated (docs : Nat → Option Doc) (c : DocumentChange) : Bool :=
  (docs c.user_id).isSome && (docs c.document_id).isSome

/-- `load_feed(changes, lang)`, with the merged hydration dict passed as
`docs`.  Empty raw page and fully-dropped page both give an empty feed with no
`pagination_token`; otherwise the token comes from the last surviving change. -/
def load_feed (changes : List DocumentChange) (docs : Nat → Option Doc) : FeedResponse :=
  match (changes.filter (hydrated docs)).getLast? with
  | none => { feed := [], pagination_token := none }
  | some last_change =>
    { feed := (changes.filter (hydrated docs)).filterMap (entryOf docs)
      pagination_token :=
        some (toString last_change.change_id ++ "," ++ isoformat last_change.time) }

/-- Outcome of `ProfileFeedRest.get`. -/
inductive ProfileFeedResult where
  | notFound
  | forbidden
  | ok (resp : FeedResponse)
deriving DecidableEq, Repr

/-- `ProfileFeedRest.get`: looks the target up with
`User.id == u AND User.email_validated`, 404 when not found, 403 when the
profile is private and the caller unauthenticated, else serves the feed. -/
def profile_feed_get (users : List UserRow) (docs : Nat → Option Doc)
    (db : List DocumentChange) (authenticated : Bool) (requested_user_id : Nat)
    (token_id token_time : Option Nat) (limit : Nat) : ProfileFeedResult :=
  match users.find? (fun u => u.id == requested_user_id && u.email_validated) with
  | none => .notFound
  | some requested_user =>
    if requested_user.is_profile_public || authenticated then
      match get_changes_of_profile_feed users requested_user_id db
          token_id token_time limit with
      | .ok changes => .ok (load_feed changes docs)
      | .notFound => .notFound
    else .forbidden

/-- `DEFAULT_PAGE_LIMIT`. -/
def DEFAULT_PAGE_LIMIT : Int := 10

/-- `MAX_PAGE_LIMIT`. -/
def MAX_PAGE_LIMIT : Int := 50

/-- The limit computation of `get_params`:
`min(DEFAULT_PAGE_LIMIT if limit is None else limit, MAX_PAGE_LIMIT)`. -/
def get_params_limit (limit : Option Int) : Int :=
  min (match limit with | none => DEFAULT_PAGE_LIMIT | some l => l) MAX_PAGE_LIMIT

/-- `a` strictly precedes `b` in the canonical order `(time DESC, change_id ASC)`;
this is exactly the resumption predicate of the pagination token of `a`. -/
def keyLT (a b : DocumentChange) : Prop :=
  b.time < a.time ∨ (b.time = a.time ∧ a.change_id < b.change_id)

instance (a b : DocumentChange) : Decidable (keyLT a b) := by
  unfold keyLT
  infer_instance

/-- A change of the concrete pagination scenario: actor 1, participant set
`{1}`, type `o`, no areas, activities or images. -/
def scenarioChange (i t d : Nat) : DocumentChange :=
  ⟨i, t, 1, [1], d, "o", "created", [], [], none, none, none, false⟩

/-- Hydration that resolves every id. -/
def allDocs : Nat → Option Doc := fun i => some ⟨i⟩

/-! ### Helper lemmas about the ordered query -/

theorem sortCanon_perm (db : List DocumentChange) : (sortCanon db).Perm db :=
  List.perm_insertionSort canonR db

theorem mem_sortCanon {c : DocumentChange} {db : List DocumentChange} :
    c ∈ sortCanon db ↔ c ∈ db :=
  (sortCanon_perm db).mem_iff

theorem sortCanon_pairwise (db : List DocumentChange) :
    (sortCanon db).Pairwise canonR :=
  List.sorted_insertionSort canonR db

theorem filter_pagination_none (l : List DocumentChange) :
    l.filter (pagination_ok none none) = l :=
  List.filter_eq_self.mpr (fun _ _ => rfl)

theorem get_changes_none_eq_take (db : List DocumentChange) (limit : Nat) :
    get_changes_of_feed db none none limit none = (sortCanon db).take limit := by
  unfold get_changes_of_feed applyExtra
  rw [filter_pagination_none]

theorem applyExtra_none (l : List DocumentChange) : applyExtra none l = l := rfl

theorem applyExtra_some (f : DocumentChange → Bool) (l : List DocumentChange) :
    applyExtra (some f) l = l.filter f := rfl

theorem get_changes_some_filter (db : List DocumentChange) (limit : Nat)
    (f : DocumentChange → Bool) :
    get_changes_of_feed db none none limit (some f)
      = ((sortCanon db).filter f).take limit := by
  unfold get_changes_of_feed
  rw [filter_pagination_none, applyExtra_some]

/-- Membership in the personal feed with no pagination token and a limit at
least the size of the change log: exactly the changes passing the personal
filter. -/
theorem mem_personal_feed_iff (u : UserPref) (db : List DocumentChange) (limit : Nat)
    (f : DocumentChange → Bool)
    (hnoc : has_no_custom_filter u = false)
    (hcp : create_personal_filter u = some f)
    (hlim : db.length ≤ limit) (c : DocumentChange) :
    c ∈ get_changes_of_personal_feed u db none none limit ↔ c ∈ db ∧ f c = true := by
  unfold get_changes_of_personal_feed
  rw [hnoc]
  simp only [Bool.false_eq_true, if_false]
  rw [hcp, get_changes_some_filter]
  have hlen : ((sortCanon db).filter f).length ≤ limit :=
    le_trans (le_trans (List.length_filter_le f _)
      (le_of_eq (sortCanon_perm db).length_eq)) hlim
  rw [List.take_of_length_le hlen, List.mem_filter, mem_sortCanon]

theorem entryOf_eq_some_of_hydrated {docs : Nat → Option Doc} {c : DocumentChange}
    (h : hydrated docs c = true) :
    ∃ e, entryOf docs c = some e ∧ e.id = c.change_id := by
  unfold hydrated at h
  rw [Bool.and_eq_true] at h
  obtain ⟨u, hu⟩ := Option.isSome_iff_exists.mp h.1
  obtain ⟨d, hd⟩ := Option.isSome_iff_exists.mp h.2
  unfold entryOf
  rw [hu, hd]
  exact ⟨_, rfl, rfl⟩

theorem map_id_filterMap_entryOf (docs : Nat → Option Doc) :
    ∀ (l : List DocumentChange), (∀ c ∈ l, hydrated docs c = true) →
      (l.filterMap (entryOf docs)).map (fun e => e.id)
        = l.map (fun c => c.change_id) := by
  intro l
  induction l with
  | nil => intro _; rfl
  | cons c cs ih =>
    intro h
    obtain ⟨e, he, hid⟩ := entryOf_eq_some_of_hydrated (h c (List.mem_cons_self c cs))
    simp only [List.filterMap_cons, he, List.map_cons, hid]
    rw [ih (fun x hx => h x (List.mem_cons_of_mem c hx))]

/-! ### C4 -/

/-- C4: the response cursor of `load_feed` is computed from the last surviving
change after hydration-driven filtering (its change id and rendered time), and
the emitted feed corresponds one-to-one to the surviving changes, so the
cursor points at the last entry actually emitted, not at the last entry of
the raw fetched page. -/
theorem cursor_from_last_surviving (changes : List DocumentChange)
    (docs : Nat → Option Doc) (lastc : DocumentChange)
    (hlast : (changes.filter (hydrated docs)).getLast? = some lastc) :
    (load_feed changes docs).pagination_token
      = some (toString lastc.change_id ++ "," ++ isoformat lastc.time) ∧
    (load_feed changes docs).feed.map (fun e => e.id)
      = (changes.filter (hydrated docs)).map (fun c => c.change_id) := by
  unfold load_feed
  rw [hlast]
  refine ⟨rfl, ?_⟩
  exact map_id_filterMap_entryOf docs _ (fun c hc => (List.mem_filter.mp hc).2)

/-- Witness for C4: a page of two raw changes whose second change references a
document that does not hydrate; the cursor comes from the first change. -/
theorem cursor_from_last_surviving_witness :
    (load_feed
        [⟨5, 3, 1, [1], 105, "o", "created", [], [], none, none, none, false⟩,
         ⟨6, 2, 1, [1], 106, "o", "created", [], [], none, none, none, false⟩]
        (fun i => if i = 106 then none else some ⟨i⟩)).pagination_token
      = some (toString 5 ++ "," ++ isoformat 3) ∧
    (load_feed
        [⟨5, 3, 1, [1], 105, "o", "created", [], [], none, none, none, false⟩,
         ⟨6, 2, 1, [1], 106, "o", "created", [], [], none, none, none, false⟩]
        (fun i => if i = 106 then none else some ⟨i⟩)).feed.map (fun e => e.id)
      = ([⟨5, 3, 1, [1], 105, "o", "created", [], [], none, none, none, false⟩,
          ⟨6, 2, 1, [1], 106, "o", "created", [], [], none, none, none, false⟩].filter
          (hydrated (fun i => if i = 106 then none else some ⟨i⟩))).map
          (fun c => c.change_id) :=
  cursor_from_last_surviving _ _
    ⟨5, 3, 1, [1], 105, "o", "created", [], [], none, none, none, false⟩ (by decide)

theorem keyLT_irrefl (a : DocumentChange) : ¬keyLT a a := by
  unfold keyLT
  omega

theorem keyLT_asymm {a b : DocumentChange} (h : keyLT a b) : ¬keyLT b a := by
  unfold keyLT at h ⊢
  omega

theorem pagination_ok_eq_keyLT (x c : DocumentChange) :
    pagination_ok (some x.change_id) (some x.time) c = decide (keyLT x c) := by
  show (decide (c.time < x.time) ||
    (decide (c.time = x.time) && decide (x.change_id < c.change_id))) = decide (keyLT x c)
  unfold keyLT
  rw [Bool.decide_or, Bool.decide_and]

/-- With pairwise-distinct `(time, change_id)` pairs the canonical sort is
strictly sorted. -/
theorem sortCanon_pairwise_keyLT (db : List DocumentChange)
    (hdist : (db.map (fun c => (c.time, c.change_id))).Nodup) :
    (sortCanon db).Pairwise keyLT := by
  have hperm := sortCanon_perm db
  have hnd : ((sortCanon db).map (fun c => (c.time, c.change_id))).Nodup :=
    ((hperm.map (fun c => (c.time, c.change_id))).symm).nodup hdist
  have hne : (sortCanon db).Pairwise
      (fun a b => (a.time, a.change_id) ≠ (b.time, b.change_id)) :=
    List.pairwise_map.mp hnd
  refine ((sortCanon_pairwise db).and hne).imp ?_
  intro a b hab
  obtain ⟨hr, hne'⟩ := hab
  have hne2 : ¬(a.time = b.time ∧ a.change_id = b.change_id) := by
    intro hx
    exact hne' (by rw [hx.1, hx.2])
  unfold canonR at hr
  unfold keyLT
  omega

/-- In a strictly sorted log, filtering by "strictly after the last element of
the first `k`" yields exactly the rest of the log. -/
theorem filter_keyLT_last_take (L : List DocumentChange) (hs : L.Pairwise keyLT)
    (k : Nat) (lastc : DocumentChange)
    (hl : (L.take k).getLast? = some lastc) :
    L.filter (fun c => decide (keyLT lastc c)) = L.drop k := by
  have hs2 : (L.take k ++ L.drop k).Pairwise keyLT := by
    rw [List.take_append_drop]
    exact hs
  rw [List.pairwise_append] at hs2
  obtain ⟨hsT, _, hcross⟩ := hs2
  have hlast_mem : lastc ∈ L.take k := List.mem_of_getLast?_eq_some hl
  have hD : ∀ b ∈ L.drop k, keyLT lastc b := fun b hb => hcross lastc hlast_mem b hb
  have hT : ∀ a ∈ L.take k, ¬keyLT lastc a := by
    obtain ⟨ys, hys⟩ := List.getLast?_eq_some_iff.mp hl
    intro a ha
    rw [hys] at ha hsT
    rw [List.pairwise_append] at hsT
    rcases List.mem_append.mp ha with hy | hone
    · exact keyLT_asymm (hsT.2.2 a hy lastc (by simp))
    · rw [List.mem_singleton.mp hone]
      exact keyLT_irrefl lastc
  conv_lhs => rw [show L = L.take k ++ L.drop k from (List.take_append_drop k L).symm]
  rw [List.filter_append,
    List.filter_eq_nil_iff.mpr (fun a ha => by
      rw [decide_eq_true_eq]
      exact hT a ha),
    List.filter_eq_self.mpr (fun b hb => decide_eq_true (hD b hb)),
    List.nil_append]

theorem entryOf_id {docs : Nat → Option Doc} {c : DocumentChange} {e : FeedEntry}
    (h : entryOf docs c = some e) : e.id = c.change_id := by
  unfold entryOf at h
  split at h
  · injection h with h
    rw [← h]
  · exact Option.noConfusion h

/-! ### C1 -/

/-- C1: over a change set with pairwise-distinct `(time, change_id)` pairs and
no hydration failures, the token returned by the first page (limit `k1`)
encodes exactly the change id and time of its last entry, and the second page
fetched with that token (limit `k2`) concatenated after the first page equals
the single fetch with limit `k1 + k2`, with no change returned twice and none
skipped. -/
theorem two_pages_concat_eq_single (db : List DocumentChange)
    (hdist : (db.map (fun c => (c.time, c.change_id))).Nodup)
    (k1 k2 : Nat) (docs : Nat → Option Doc) (hdocs : ∀ i, (docs i).isSome)
    (lastc : DocumentChange)
    (hlast : (get_changes_of_feed db none none k1 none).getLast? = some lastc) :
    (load_feed (get_changes_of_feed db none none k1 none) docs).pagination_token
      = some (toString lastc.change_id ++ "," ++ isoformat lastc.time) ∧
    get_changes_of_feed db none none k1 none
        ++ get_changes_of_feed db (some lastc.change_id) (some lastc.time) k2 none
      = get_changes_of_feed db none none (k1 + k2) none ∧
    (get_changes_of_feed db none none k1 none
        ++ get_changes_of_feed db (some lastc.change_id) (some lastc.time) k2 none).Nodup := by
  have hstrict : (sortCanon db).Pairwise keyLT := sortCanon_pairwise_keyLT db hdist
  have hp1 : get_changes_of_feed db none none k1 none = (sortCanon db).take k1 :=
    get_changes_none_eq_take db k1
  have hlast' : ((sortCanon db).take k1).getLast? = some lastc := by
    rw [← hp1]
    exact hlast
  have hfilter : (sortCanon db).filter (fun c => decide (keyLT lastc c))
      = (sortCanon db).drop k1 :=
    filter_keyLT_last_take (sortCanon db) hstrict k1 lastc hlast'
  have hp2 : get_changes_of_feed db (some lastc.change_id) (some lastc.time) k2 none
      = ((sortCanon db).drop k1).take k2 := by
    unfold get_changes_of_feed
    rw [applyExtra_none]
    rw [List.filter_congr (fun c _ => pagination_ok_eq_keyLT lastc c), hfilter]
  have htake : (sortCanon db).take (k1 + k2)
      = (sortCanon db).take k1 ++ ((sortCanon db).drop k1).take k2 := by
    calc (sortCanon db).take (k1 + k2)
        = ((sortCanon db).take (k1 + k2)).take k1
            ++ ((sortCanon db).take (k1 + k2)).drop k1 :=
          (List.take_append_drop k1 _).symm
      _ = (sortCanon db).take k1 ++ ((sortCanon db).drop k1).take k2 := by
          rw [List.take_take, Nat.min_eq_left (Nat.le_add_right k1 k2), List.take_drop]
  have hcat : get_changes_of_feed db none none k1 none
      ++ get_changes_of_feed db (some lastc.change_id) (some lastc.time) k2 none
      = get_changes_of_feed db none none (k1 + k2) none := by
    rw [hp1, hp2, get_changes_none_eq_take db (k1 + k2), htake]
  refine ⟨?_, hcat, ?_⟩
  · have hsurv : ((sortCanon db).take k1).filter (hydrated docs)
        = (sortCanon db).take k1 :=
      List.filter_eq_self.mpr (fun c _ => by
        unfold hydrated
        rw [hdocs c.user_id, hdocs c.document_id]
        rfl)
    rw [hp1]
    unfold load_feed
    rw [hsurv, hlast']
  · rw [hcat, get_changes_none_eq_take db (k1 + k2)]
    have : ((sortCanon db).take (k1 + k2)).Pairwise keyLT :=
      hstrict.sublist (List.take_sublist (k1 + k2) (sortCanon db))
    refine this.imp ?_
    intro a b hab heq
    rw [heq] at hab
    exact keyLT_irrefl b hab

/-- Witness for C1: three changes (two sharing one timestamp), `k1 = k2 = 2`,
full hydration; the token of page 1 is the tied change with the larger id. -/
theorem two_pages_concat_eq_single_witness :
    get_changes_of_feed
        [scenarioChange 1 5 101, scenarioChange 2 5 102, scenarioChange 3 4 103]
        none none 2 none
      ++ get_changes_of_feed
        [scenarioChange 1 5 101, scenarioChange 2 5 102, scenarioChange 3 4 103]
        (some 2) (some 5) 2 none
      = get_changes_of_feed
        [scenarioChange 1 5 101, scenarioChange 2 5 102, scenarioChange 3 4 103]
        none none 4 none :=
  (two_pages_concat_eq_single
    [scenarioChange 1 5 101, scenarioChange 2 5 102, scenarioChange 3 4 103]
    (by decide) 2 2 allDocs (fun i => rfl) (scenarioChange 2 5 102) (by decide)).2.1

/-! ### C5 -/

/-- C5: a fetched change is dropped from the feed iff its actor or its target
document failed to hydrate; a surviving change yields exactly one entry whose
participants list omits unresolved participant ids (and the actor), whose
image slots are absent when the image id is absent or failed to hydrate, and
whose other fields are populated normally; other changes of the page keep
their own entries by the same rule. -/
theorem drop_iff_actor_or_document_missing (changes : List DocumentChange)
    (docs : Nat → Option Doc)
    (hnd : (changes.map (fun c => c.change_id)).Nodup)
    (c : DocumentChange) (hc : c ∈ changes) :
    (∀ u d, docs c.user_id = some u → docs c.document_id = some d →
      ({ id := c.change_id, time := isoformat c.time, user := u,
         participants := c.user_ids.filterMap
           (fun uid => if uid = c.user_id then none else docs uid),
         change_type := c.change_type, document := d,
         image1 := c.image1_id.bind docs, image2 := c.image2_id.bind docs,
         image3 := c.image3_id.bind docs, more_images := c.more_images } : FeedEntry)
        ∈ (load_feed changes docs).feed) ∧
    (hydrated docs c = false →
      ∀ e ∈ (load_feed changes docs).feed, e.id ≠ c.change_id) := by
  constructor
  · intro u d hu hd
    have hh : hydrated docs c = true := by
      unfold hydrated
      rw [hu, hd]
      rfl
    have hcs : c ∈ changes.filter (hydrated docs) := List.mem_filter.mpr ⟨hc, hh⟩
    have hne : changes.filter (hydrated docs) ≠ [] := List.ne_nil_of_mem hcs
    obtain ⟨l, hl⟩ := Option.isSome_iff_exists.mp (List.getLast?_isSome.mpr hne)
    unfold load_feed
    rw [hl]
    refine List.mem_filterMap.mpr ⟨c, hcs, ?_⟩
    unfold entryOf
    rw [hu, hd]
  · intro hdrop e he hid
    unfold load_feed at he
    cases hl : (changes.filter (hydrated docs)).getLast? with
    | none =>
      rw [hl] at he
      exact absurd he (List.not_mem_nil e)
    | some l =>
      rw [hl] at he
      obtain ⟨cx, hcx, hecx⟩ := List.mem_filterMap.mp he
      obtain ⟨hcx_mem, hcx_hyd⟩ := List.mem_filter.mp hcx
      have : cx = c := List.inj_on_of_nodup_map hnd hcx_mem hc (by
        rw [← entryOf_id hecx, hid])
      rw [this] at hcx_hyd
      rw [hcx_hyd] at hdrop
      exact Bool.noConfusion hdrop

/-- Witness for C5: a change with one unresolvable participant (50) and an
unresolvable second image (also 50): the emitted entry keeps everything else
and leaves the second image slot absent. -/
theorem drop_iff_actor_or_document_missing_witness :
    ({ id := 5, time := isoformat 3, user := ⟨1⟩, participants := [⟨2⟩],
       change_type := "created", document := ⟨105⟩, image1 := some ⟨60⟩,
       image2 := none, image3 := none, more_images := false } : FeedEntry)
      ∈ (load_feed
          [⟨5, 3, 1, [1, 2, 50], 105, "o", "created", [], [],
            some 60, some 50, none, false⟩]
          (fun i => if i = 50 then none else some ⟨i⟩)).feed :=
  (drop_iff_actor_or_document_missing
    [⟨5, 3, 1, [1, 2, 50], 105, "o", "created", [], [], some 60, some 50, none, false⟩]
    (fun i => if i = 50 then none else some ⟨i⟩) (by decide)
    ⟨5, 3, 1, [1, 2, 50], 105, "o", "created", [], [], some 60, some 50, none, false⟩
    (by decide)).1 ⟨1⟩ ⟨105⟩ rfl rfl

/-! ### C6 -/

/-- C6: a user with no activity filter, no area filter and `feed_followed_only`
unset gets exactly the global feed — same changes, same order, and hence the
same response with the same cursor — even when they follow other users. -/
theorem personal_feed_no_filters_eq_global (u : UserPref) (db : List DocumentChange)
    (token_id token_time : Option Nat) (limit : Nat) (docs : Nat → Option Doc)
    (hact : u.feed_filter_activities = []) (harea : u.filter_area_ids = [])
    (hffo : u.feed_followed_only = false) :
    get_changes_of_personal_feed u db token_id token_time limit
      = get_changes_of_feed db token_id token_time limit none ∧
    load_feed (get_changes_of_personal_feed u db token_id token_time limit) docs
      = load_feed (get_changes_of_feed db token_id token_time limit none) docs := by
  have h1 : get_changes_of_personal_feed u db token_id token_time limit
      = get_changes_of_feed db token_id token_time limit none := by
    unfold get_changes_of_personal_feed
    by_cases hf : has_no_custom_filter u
    · rw [if_pos hf]
    · rw [if_neg hf]
      have hcp : create_personal_filter u = none := by
        simp [create_personal_filter, hffo, hact, has_area_filter, harea]
      rw [hcp]
  exact ⟨h1, by rw [h1]⟩

/-- Witness for C6: a user who follows user 2 but has no filters configured. -/
theorem personal_feed_no_filters_eq_global_witness :
    get_changes_of_personal_feed ⟨1, false, [], [], [2]⟩
        [⟨5, 3, 1, [1], 105, "o", "created", [], [], none, none, none, false⟩]
        none none 10
      = get_changes_of_feed
        [⟨5, 3, 1, [1], 105, "o", "created", [], [], none, none, none, false⟩]
        none none 10 none :=
  (personal_feed_no_filters_eq_global ⟨1, false, [], [], [2]⟩
    [⟨5, 3, 1, [1], 105, "o", "created", [], [], none, none, none, false⟩]
    none none 10 (fun i => some ⟨i⟩) rfl rfl rfl).1

/-! ### C7 -/

/-- C7 counterexample: `get_params` applies no lower clamp — a supplied limit
of 0 stays 0, outside the claimed range `[1, 50]`. -/
theorem get_params_limit_no_lower_clamp :
    get_params_limit (some 0) = 0 ∧ ¬(1 ≤ get_params_limit (some 0)) := by
  constructor
  · rfl
  · decide

/-- C7 amended: the effective limit is `min(supplied, 50)` with default 10 when
absent — an upper clamp only, no lower clamp — so `limit=1000` yields at most
50 entries and an omitted limit yields at most 10. -/
theorem limit_upper_clamp_and_default :
    get_params_limit (some 1000) = 50 ∧ get_params_limit none = 10 ∧
    (∀ l : Int, get_params_limit (some l) = min l 50) ∧
    (∀ (db : List DocumentChange) (token_id token_time : Option Nat)
        (extra_filter : Option (DocumentChange → Bool)),
      (get_changes_of_feed db token_id token_time
          (get_params_limit (some 1000)).toNat extra_filter).length ≤ 50) ∧
    (∀ (db : List DocumentChange) (token_id token_time : Option Nat)
        (extra_filter : Option (DocumentChange → Bool)),
      (get_changes_of_feed db token_id token_time
          (get_params_limit none).toNat extra_filter).length ≤ 10) := by
  refine ⟨rfl, rfl, fun l => rfl, ?_, ?_⟩
  · intro db token_id token_time extra_filter
    unfold get_changes_of_feed
    rw [List.length_take]
    exact le_trans (min_le_left _ _) (by decide)
  · intro db token_id token_time extra_filter
    unfold get_changes_of_feed
    rw [List.length_take]
    exact le_trans (min_le_left _ _) (by decide)

/-! ### C8 -/

/-- C8 counterexample: in the two-change scenario the follow-up request
(token `"10,T2"`, limit 1) returns the id-9 entry, and its response DOES
carry a further pagination token `"9,T1"` — the token is only absent when the
feed is empty, not when nothing older exists. -/
theorem second_page_token_present :
    (load_feed (get_changes_of_feed
        [scenarioChange 10 2 100, scenarioChange 9 1 101] (some 10) (some 2) 1 none)
      allDocs).feed.map (fun e => e.id) = [9] ∧
    (load_feed (get_changes_of_feed
        [scenarioChange 10 2 100, scenarioChange 9 1 101] (some 10) (some 2) 1 none)
      allDocs).pagination_token
      = some (toString (9 : Nat) ++ "," ++ isoformat 1) ∧
    (load_feed (get_changes_of_feed
        [scenarioChange 10 2 100, scenarioChange 9 1 101] (some 10) (some 2) 1 none)
      allDocs).pagination_token ≠ none := by
  refine ⟨rfl, rfl, ?_⟩
  rw [show (load_feed (get_changes_of_feed
        [scenarioChange 10 2 100, scenarioChange 9 1 101] (some 10) (some 2) 1 none)
      allDocs).pagination_token
      = some (toString (9 : Nat) ++ "," ++ isoformat 1) from rfl]
  exact Option.some_ne_none _

/-- C8 amended: with changes id 10 at `T2` and id 9 at `T1 < T2`, a limit-1
global fetch returns only id 10 with token `"10,T2"`; the follow-up with that
token returns only id 9, and its response carries the token `"9,T1"`; a third
request with that token returns an empty feed with no token, because nothing
older exists. -/
theorem pagination_scenario (T1 T2 : Nat) (h : T1 < T2) :
    get_changes_of_feed [scenarioChange 10 T2 100, scenarioChange 9 T1 101]
        none none 1 none = [scenarioChange 10 T2 100] ∧
    (load_feed (get_changes_of_feed
        [scenarioChange 10 T2 100, scenarioChange 9 T1 101] none none 1 none)
      allDocs).pagination_token
      = some (toString (10 : Nat) ++ "," ++ isoformat T2) ∧
    get_changes_of_feed [scenarioChange 10 T2 100, scenarioChange 9 T1 101]
        (some 10) (some T2) 1 none = [scenarioChange 9 T1 101] ∧
    (load_feed (get_changes_of_feed
        [scenarioChange 10 T2 100, scenarioChange 9 T1 101] (some 10) (some T2) 1 none)
      allDocs).pagination_token
      = some (toString (9 : Nat) ++ "," ++ isoformat T1) ∧
    (load_feed (get_changes_of_feed
        [scenarioChange 10 T2 100, scenarioChange 9 T1 101] (some 9) (some T1) 1 none)
      allDocs).feed = [] ∧
    (load_feed (get_changes_of_feed
        [scenarioChange 10 T2 100, scenarioChange 9 T1 101] (some 9) (some T1) 1 none)
      allDocs).pagination_token = none := by
  have hs : sortCanon [scenarioChange 10 T2 100, scenarioChange 9 T1 101]
      = [scenarioChange 10 T2 100, scenarioChange 9 T1 101] := by
    unfold sortCanon scenarioChange
    simp [canonR, h]
  have hp10 : pagination_ok (some 10) (some T2) (scenarioChange 10 T2 100) = false := by
    show (decide (T2 < T2) || (decide (T2 = T2) && decide (10 < 10))) = false
    rw [decide_eq_false (lt_irrefl T2), decide_eq_false (by omega : ¬(10 : Nat) < 10)]
    simp
  have hp9 : pagination_ok (some 10) (some T2) (scenarioChange 9 T1 101) = true := by
    show (decide (T1 < T2) || (decide (T1 = T2) && decide (10 < 9))) = true
    rw [decide_eq_true h]
    rfl
  have hq10 : pagination_ok (some 9) (some T1) (scenarioChange 10 T2 100) = false := by
    show (decide (T2 < T1) || (decide (T2 = T1) && decide (9 < 10))) = false
    rw [decide_eq_false (by omega : ¬T2 < T1), decide_eq_false (by omega : ¬T2 = T1)]
    rfl
  have hq9 : pagination_ok (some 9) (some T1) (scenarioChange 9 T1 101) = false := by
    show (decide (T1 < T1) || (decide (T1 = T1) && decide (9 < 9))) = false
    rw [decide_eq_false (lt_irrefl T1), decide_eq_false (by omega : ¬(9 : Nat) < 9)]
    simp
  have h1 : get_changes_of_feed [scenarioChange 10 T2 100, scenarioChange 9 T1 101]
      none none 1 none = [scenarioChange 10 T2 100] := by
    rw [get_changes_none_eq_take, hs]
    rfl
  have h2 : get_changes_of_feed [scenarioChange 10 T2 100, scenarioChange 9 T1 101]
      (some 10) (some T2) 1 none = [scenarioChange 9 T1 101] := by
    unfold get_changes_of_feed
    rw [hs, applyExtra_none]
    rw [List.filter_cons_of_neg (by rw [hp10]; exact Bool.false_ne_true),
      List.filter_cons_of_pos hp9, List.filter_nil]
    rfl
  have h3 : get_changes_of_feed [scenarioChange 10 T2 100, scenarioChange 9 T1 101]
      (some 9) (some T1) 1 none = [] := by
    unfold get_changes_of_feed
    rw [hs, applyExtra_none]
    rw [List.filter_cons_of_neg (by rw [hq10]; exact Bool.false_ne_true),
      List.filter_cons_of_neg (by rw [hq9]; exact Bool.false_ne_true),
      List.filter_nil]
    rfl
  refine ⟨h1, ?_, h2, ?_, ?_, ?_⟩
  · rw [h1]
    rfl
  · rw [h2]
    rfl
  · rw [h3]
    rfl
  · rw [h3]
    rfl

/-- Witness for C8 amended: the scenario evaluated at `T1 = 1`, `T2 = 2`:
the second page consists of the id-9 change alone. -/
theorem pagination_scenario_witness :
    get_changes_of_feed [scenarioChange 10 2 100, scenarioChange 9 1 101]
        (some 10) (some 2) 1 none = [scenarioChange 9 1 101] :=
  (pagination_scenario 1 2 (by decide)).2.2.1

/-! ### C9 -/

/-- C9 counterexample: a user row that exists with a public profile but a
non-validated email gets 404 from the profile feed, where the claim demands
200 regardless of the caller; the lookup also requires `email_validated`. -/
theorem profile_feed_public_profile_404 :
    (UserRow.mk 7 false true).is_profile_public = true ∧
    profile_feed_get [UserRow.mk 7 false true] (fun i => some ⟨i⟩) [] false 7
        none none 10 = ProfileFeedResult.notFound := by
  exact ⟨rfl, rfl⟩

/-- C9 amended: with the target restricted to rows found by the endpoint's
lookup (`id` matches and `email_validated` holds): a missing user id gives
404; a private profile with an unauthenticated caller gives 403; a public
profile is served regardless of the caller's authentication state. -/
theorem profile_feed_status_codes :
    (∀ (users : List UserRow) (docs : Nat → Option Doc) (db : List DocumentChange)
        (authenticated : Bool) (uid : Nat) (token_id token_time : Option Nat) (limit : Nat),
      (∀ u ∈ users, u.id ≠ uid) →
      profile_feed_get users docs db authenticated uid token_id token_time limit
        = ProfileFeedResult.notFound) ∧
    (∀ (users : List UserRow) (docs : Nat → Option Doc) (db : List DocumentChange)
        (uid : Nat) (token_id token_time : Option Nat) (limit : Nat) (target : UserRow),
      users.find? (fun u => u.id == uid && u.email_validated) = some target →
      target.is_profile_public = false →
      profile_feed_get users docs db false uid token_id token_time limit
        = ProfileFeedResult.forbidden) ∧
    (∀ (users : List UserRow) (docs : Nat → Option Doc) (db : List DocumentChange)
        (authenticated : Bool) (uid : Nat) (token_id token_time : Option Nat) (limit : Nat)
        (target : UserRow),
      users.find? (fun u => u.id == uid && u.email_validated) = some target →
      target.is_profile_public = true →
      ∃ resp, profile_feed_get users docs db authenticated uid token_id token_time limit
        = ProfileFeedResult.ok resp) := by
  refine ⟨?_, ?_, ?_⟩
  · intro users docs db authenticated uid token_id token_time limit hno
    unfold profile_feed_get
    have hfind : users.find? (fun u => u.id == uid && u.email_validated) = none := by
      rw [List.find?_eq_none]
      intro u hu
      simp [hno u hu]
    rw [hfind]
  · intro users docs db uid token_id token_time limit target hfind hpriv
    unfold profile_feed_get
    rw [hfind]
    simp [hpriv]
  · intro users docs db authenticated uid token_id token_time limit target hfind hpub
    unfold profile_feed_get
    rw [hfind]
    have hmem := List.mem_of_find?_eq_some hfind
    have hpred := List.find?_some hfind
    rw [Bool.and_eq_true, beq_iff_eq] at hpred
    have hany : users.any (fun u => u.id == uid) = true :=
      List.any_eq_true.mpr ⟨target, hmem, by rw [beq_iff_eq]; exact hpred.1⟩
    refine ⟨load_feed (get_changes_of_feed db token_id token_time limit
      (some (fun c => overlaps c.user_ids [uid]))) docs, ?_⟩
    unfold get_changes_of_profile_feed
    simp [hany, hpub]

/-- Witness for C9 amended: the three outcomes at concrete inputs. -/
theorem profile_feed_status_codes_witness :
    profile_feed_get [UserRow.mk 7 true true] (fun i => some ⟨i⟩) [] false 8
        none none 10 = ProfileFeedResult.notFound ∧
    profile_feed_get [UserRow.mk 7 true false] (fun i => some ⟨i⟩) [] false 7
        none none 10 = ProfileFeedResult.forbidden ∧
    ∃ resp, profile_feed_get [UserRow.mk 7 true true] (fun i => some ⟨i⟩) [] false 7
        none none 10 = ProfileFeedResult.ok resp :=
  ⟨profile_feed_status_codes.1 [UserRow.mk 7 true true] (fun i => some ⟨i⟩) [] false 8
      none none 10 (by decide),
   profile_feed_status_codes.2.1 [UserRow.mk 7 true false] (fun i => some ⟨i⟩) [] 7
      none none 10 (UserRow.mk 7 true false) (by decide) rfl,
   profile_feed_status_codes.2.2 [UserRow.mk 7 true true] (fun i => some ⟨i⟩) [] false 7
      none none 10 (UserRow.mk 7 true true) (by decide) rfl⟩

/-! ### C10 -/

/-- C10: a user row that exists but whose email is not validated is invisible
to the endpoint's lookup, so the request ends in 404 exactly as for a
nonexistent user, while the separate existence check inside
`get_changes_of_profile_feed` (which tests only the id) still succeeds. -/
theorem profile_feed_unvalidated_email_404 (users : List UserRow)
    (docs : Nat → Option Doc) (db : List DocumentChange) (authenticated : Bool)
    (uid : Nat) (token_id token_time : Option Nat) (limit : Nat)
    (hex : ∃ u ∈ users, u.id = uid)
    (hnv : ∀ u ∈ users, u.id = uid → u.email_validated = false) :
    profile_feed_get users docs db authenticated uid token_id token_time limit
      = ProfileFeedResult.notFound ∧
    ∃ cs, get_changes_of_profile_feed users uid db token_id token_time limit
      = ProfileChangesResult.ok cs := by
  constructor
  · unfold profile_feed_get
    have hfind : users.find? (fun u => u.id == uid && u.email_validated) = none := by
      rw [List.find?_eq_none]
      intro u hu
      by_cases h : u.id = uid
      · simp [h, hnv u hu h]
      · simp [h]
    rw [hfind]
  · unfold get_changes_of_profile_feed
    obtain ⟨u, hu, hid⟩ := hex
    have hany : users.any (fun x => x.id == uid) = true :=
      List.any_eq_true.mpr ⟨u, hu, by rw [beq_iff_eq]; exact hid⟩
    rw [if_pos hany]
    exact ⟨_, rfl⟩

/-! ### C2 -/

/-- C2 counterexample: with both an area filter and an activity filter
configured, the code connects them with AND, so a change matching only the
area filter is not returned, though the claim's OR demands it. -/
theorem area_activity_and_not_or :
    overlaps
        (DocumentChange.area_ids
          ⟨5, 3, 1, [1], 105, "o", "created", [7], ["hike"], none, none, none, false⟩)
        (UserPref.filter_area_ids ⟨1, false, ["ski"], [7], []⟩) = true ∧
    get_changes_of_personal_feed ⟨1, false, ["ski"], [7], []⟩
        [⟨5, 3, 1, [1], 105, "o", "created", [7], ["hike"], none, none, none, false⟩]
        none none 10 = [] := by
  exact ⟨rfl, rfl⟩

/-- C2 amended: a user with an area filter and an activity filter and no
followed users receives exactly the changes whose `area_ids` intersects the
area set AND whose `activities` intersects the activity set; adding followed
users OR-extends this set with the changes involving any followed user. -/
theorem area_activity_composition :
    (∀ (u : UserPref) (db : List DocumentChange) (limit : Nat),
      u.feed_followed_only = false → u.filter_area_ids ≠ [] →
      u.feed_filter_activities ≠ [] → u.followed_user_ids = [] →
      db.length ≤ limit → ∀ c : DocumentChange,
        c ∈ get_changes_of_personal_feed u db none none limit ↔
          c ∈ db ∧ (overlaps c.area_ids u.filter_area_ids = true ∧
            overlaps c.activities u.feed_filter_activities = true)) ∧
    (∀ (u : UserPref) (db : List DocumentChange) (limit : Nat),
      u.feed_followed_only = false → u.filter_area_ids ≠ [] →
      u.feed_filter_activities ≠ [] → u.followed_user_ids ≠ [] →
      db.length ≤ limit → ∀ c : DocumentChange,
        c ∈ get_changes_of_personal_feed u db none none limit ↔
          c ∈ db ∧ ((overlaps c.area_ids u.filter_area_ids = true ∧
              overlaps c.activities u.feed_filter_activities = true) ∨
            overlaps c.user_ids u.followed_user_ids = true)) := by
  constructor
  · intro u db limit hffo harea hact hfol hlim c
    have hnoc : has_no_custom_filter u = false := by
      unfold has_no_custom_filter
      simp [hact]
    have hcp : create_personal_filter u
        = some (fun c => overlaps c.area_ids u.filter_area_ids &&
            overlaps c.activities u.feed_filter_activities) := by
      unfold create_personal_filter create_area_filter create_activity_filter
        create_followed_users_filter has_area_filter is_following_users
      simp [hffo, hact, harea, hfol]
    rw [mem_personal_feed_iff u db limit _ hnoc hcp hlim c, Bool.and_eq_true]
  · intro u db limit hffo harea hact hfol hlim c
    have hnoc : has_no_custom_filter u = false := by
      unfold has_no_custom_filter
      simp [hact]
    have hcp : create_personal_filter u
        = some (fun c => (overlaps c.area_ids u.filter_area_ids &&
            overlaps c.activities u.feed_filter_activities) ||
            overlaps c.user_ids u.followed_user_ids) := by
      unfold create_personal_filter create_area_filter create_activity_filter
        create_followed_users_filter has_area_filter is_following_users
      simp [hffo, hact, harea, hfol]
    rw [mem_personal_feed_iff u db limit _ hnoc hcp hlim c, Bool.or_eq_true,
      Bool.and_eq_true]

/-- Witness for C2 amended: both parts evaluated on one-change logs. -/
theorem area_activity_composition_witness :
    (⟨5, 3, 1, [1], 105, "o", "created", [7], ["ski"], none, none, none, false⟩
        ∈ get_changes_of_personal_feed ⟨1, false, ["ski"], [7], []⟩
          [⟨5, 3, 1, [1], 105, "o", "created", [7], ["ski"], none, none, none, false⟩]
          none none 10 ↔
      (⟨5, 3, 1, [1], 105, "o", "created", [7], ["ski"], none, none, none, false⟩ :
          DocumentChange)
        ∈ [⟨5, 3, 1, [1], 105, "o", "created", [7], ["ski"], none, none, none, false⟩] ∧
        (overlaps [7] [7] = true ∧ overlaps ["ski"] ["ski"] = true)) ∧
    (⟨5, 3, 2, [2], 105, "o", "created", [], [], none, none, none, false⟩
        ∈ get_changes_of_personal_feed ⟨1, false, ["ski"], [7], [2]⟩
          [⟨5, 3, 2, [2], 105, "o", "created", [], [], none, none, none, false⟩]
          none none 10 ↔
      (⟨5, 3, 2, [2], 105, "o", "created", [], [], none, none, none, false⟩ :
          DocumentChange)
        ∈ [⟨5, 3, 2, [2], 105, "o", "created", [], [], none, none, none, false⟩] ∧
        ((overlaps [] [7] = true ∧ overlaps [] ["ski"] = true) ∨
          overlaps [2] [2] = true)) :=
  ⟨area_activity_composition.1 ⟨1, false, ["ski"], [7], []⟩
      [⟨5, 3, 1, [1], 105, "o", "created", [7], ["ski"], none, none, none, false⟩]
      10 rfl (by decide) (by decide) rfl (by decide) _,
   area_activity_composition.2 ⟨1, false, ["ski"], [7], [2]⟩
      [⟨5, 3, 2, [2], 105, "o", "created", [], [], none, none, none, false⟩]
      10 rfl (by decide) (by decide) (by decide) (by decide) _⟩

/-! ### C3 -/

/-- C3 counterexample: with `feed_followed_only` set but nobody followed,
`create_followed_users_filter` is None, so the personal filter is None and
the user gets the whole global feed, including changes entirely outside
their (empty) followed-user set. -/
theorem ffo_without_followed_gets_global :
    get_changes_of_personal_feed ⟨1, true, [], [], []⟩
        [⟨5, 3, 9, [9], 105, "o", "created", [], [], none, none, none, false⟩]
        none none 10
      = [⟨5, 3, 9, [9], 105, "o", "created", [], [], none, none, none, false⟩] ∧
    overlaps
        (DocumentChange.user_ids
          ⟨5, 3, 9, [9], 105, "o", "created", [], [], none, none, none, false⟩)
        (UserPref.followed_user_ids ⟨1, true, [], [], []⟩) = false := by
  exact ⟨rfl, rfl⟩

/-- C3 amended: for a user with `feed_followed_only` set who follows at least
one user, the personal filter is the followed-user predicate alone — any
configured area or activity filter is ignored — and every change the personal
feed returns involves a followed user. -/
theorem ffo_followed_filter_alone (u : UserPref) (db : List DocumentChange)
    (token_id token_time : Option Nat) (limit : Nat)
    (hffo : u.feed_followed_only = true) (hfol : u.followed_user_ids ≠ []) :
    create_personal_filter u
      = some (fun c => overlaps c.user_ids u.followed_user_ids) ∧
    ∀ c ∈ get_changes_of_personal_feed u db token_id token_time limit,
      overlaps c.user_ids u.followed_user_ids = true := by
  have hcp : create_personal_filter u
      = some (fun c => overlaps c.user_ids u.followed_user_ids) := by
    unfold create_personal_filter
    rw [if_pos hffo]
    unfold create_followed_users_filter is_following_users
    simp [hfol]
  refine ⟨hcp, ?_⟩
  intro c hc
  have hnoc : has_no_custom_filter u = false := by
    unfold has_no_custom_filter
    simp [hffo]
  unfold get_changes_of_personal_feed at hc
  rw [hnoc] at hc
  simp only [Bool.false_eq_true, if_false] at hc
  rw [hcp] at hc
  unfold get_changes_of_feed at hc
  rw [applyExtra_some] at hc
  exact (List.mem_filter.mp (List.mem_of_mem_take hc)).2

/-- Witness for C3 amended: a follow-only user with area and activity filters
configured; the filters are ignored and the returned change involves the
followed user. -/
theorem ffo_followed_filter_alone_witness :
    create_personal_filter ⟨1, true, ["ski"], [7], [2]⟩
      = some (fun c => overlaps c.user_ids
          (UserPref.followed_user_ids ⟨1, true, ["ski"], [7], [2]⟩)) ∧
    ∀ c ∈ get_changes_of_personal_feed ⟨1, true, ["ski"], [7], [2]⟩
        [⟨5, 3, 2, [2], 105, "o", "created", [], [], none, none, none, false⟩]
        none none 10,
      overlaps c.user_ids (UserPref.followed_user_ids ⟨1, true, ["ski"], [7], [2]⟩)
        = true :=
  ffo_followed_filter_alone ⟨1, true, ["ski"], [7], [2]⟩
    [⟨5, 3, 2, [2], 105, "o", "created", [], [], none, none, none, false⟩]
    none none 10 rfl (by decide)

/-- Witness for C10: user 7 exists with a non-validated email. -/
theorem profile_feed_unvalidated_email_404_witness :
    profile_feed_get [UserRow.mk 7 false true] (fun i => some ⟨i⟩) [] true 7
        none none 10 = ProfileFeedResult.notFound ∧
    ∃ cs, get_changes_of_profile_feed [UserRow.mk 7 false true] 7 [] none none 10
      = ProfileChangesResult.ok cs :=
  profile_feed_unvalidated_email_404 [UserRow.mk 7 false true] (fun i => some ⟨i⟩)
    [] true 7 none none 10 ⟨UserRow.mk 7 false true, by decide, rfl⟩ (by decide)

end Feed
